import Mathlib

/-!
Shallow embedding of `driftpy/accounts/ws/multi_account_subscriber.py`
(`WebsocketMultiAccountSubscriber`) and proofs about its registry,
correlator and merge logic.

Python dicts are modelled as insertion-ordered association lists,
Python sets of oracle ids as duplicate-free lists, and a decoder
(`Callable[[bytes], Any]`) as a function returning `Option` (`none`
models a raised decode exception).  The snapshot-fetch collaborator
(`get_account_data_and_slot`) is passed in as an `Option` result
(`none` models the raised exception caught in `add_account`).
-/

namespace DriftWs

/-- Raw account bytes carried by a notification frame. -/
def Bytes : Type := List Nat

/-- `DataAndSlot` from `driftpy.accounts`: a decoded value paired with the
ledger slot it was observed at. -/
structure DataAndSlot (α : Type) where
  slot : Nat
  data : α
deriving DecidableEq, Repr

/-- `solders.pubkey.Pubkey`: opaque account address with value equality;
`str` is its canonical string form (`str(pubkey)` in the source). -/
structure Pubkey where
  str : String
deriving DecidableEq, Repr

/-- A per-logical-key decode function; `none` models a decode exception. -/
def Decoder (α : Type) : Type := Bytes → Option α

/-- Lookup in an insertion-ordered association list (Python `dict.get`). -/
def findA {κ ν : Type} [DecidableEq κ] : List (κ × ν) → κ → Option ν
  | [], _ => none
  | (k', v) :: rest, k => if k' = k then some v else findA rest k

/-- Insert-or-replace (Python `dict[k] = v`): replaces in place, preserving
insertion order, else appends. -/
def insertA {κ ν : Type} [DecidableEq κ] : List (κ × ν) → κ → ν → List (κ × ν)
  | [], k, v => [(k, v)]
  | (k', v') :: rest, k, v =>
    if k' = k then (k, v) :: rest else (k', v') :: insertA rest k v

/-- Key deletion (Python `del dict[k]` / guarded deletes). -/
def eraseA {κ ν : Type} [DecidableEq κ] : List (κ × ν) → κ → List (κ × ν)
  | [], _ => []
  | (k', v') :: rest, k =>
    if k' = k then eraseA rest k else (k', v') :: eraseA rest k

/-- The mutable state of one `WebsocketMultiAccountSubscriber` instance
(field names follow the source; `ws`/`task` model `is not None`). -/
structure SubState (α : Type) where
  ws : Bool
  task : Bool
  running : Bool
  subscription_map : List (Nat × Pubkey)
  pubkey_to_subscription : List (Pubkey × Nat)
  decode_map : List (String × Decoder α)
  data_map : List (String × DataAndSlot α)
  initial_data_map : List (String × DataAndSlot α)
  pending_subscriptions : List Pubkey
  pubkey_to_oracle_ids : List (Pubkey × List String)
  oracle_id_to_subscription : List (String × Nat)
  request_id_counter : Nat
  inflight_subscribes : List (Nat × Pubkey × Option String)

/-- The freshly constructed state (`__init__`). -/
def initialState (α : Type) : SubState α :=
  ⟨false, false, false, [], [], [], [], [], [], [], [], 0, []⟩

/-- Wire frames sent by the client. -/
inductive Frame where
  | subscribeFrame (request_id : Nat) (pubkey : Pubkey)
  | unsubscribeFrame (subscription_id : Nat)
deriving DecidableEq, Repr

/-- `_update_data(key, new_data)`: the slot-monotonic merge.  A `none`
value is a no-op; otherwise the value is stored iff there is no cached
value or `new_data.slot >= current_data.slot`. -/
def update_data {α : Type} (s : SubState α) (key : String)
    (new_data : Option (DataAndSlot α)) : SubState α :=
  match new_data with
  | none => s
  | some nd =>
    match findA s.data_map key with
    | none => { s with data_map := insertA s.data_map key nd }
    | some cur =>
      if cur.slot ≤ nd.slot then { s with data_map := insertA s.data_map key nd }
      else s

/-- `get_data(key)`: pure cache read.  A `Pubkey` argument resolves through
`pubkey_to_oracle_ids` (empty → canonical string key, otherwise the first
oracle id); a string argument reads exactly that cache entry. -/
def get_data {α : Type} (s : SubState α) (key : Pubkey ⊕ String) :
    Option (DataAndSlot α) :=
  match key with
  | .inr k => findA s.data_map k
  | .inl pk =>
    match (findA s.pubkey_to_oracle_ids pk).getD [] with
    | [] => findA s.data_map pk.str
    | oid :: _ => findA s.data_map oid

/-- One fan-out step of the notification handler: look up the key's decoder,
decode (an exception skips the key), and merge via `update_data`. -/
def apply_oracle_update {α : Type} (slot : Nat) (bytes : Bytes)
    (s : SubState α) (oid : String) : SubState α :=
  match findA s.decode_map oid with
  | none => s
  | some d =>
    match d bytes with
    | none => s
    | some v => update_data s oid (some ⟨slot, v⟩)

/-- The notification branch of `_subscribe_ws`'s read loop: resolve the
subscription id to a pubkey (unknown ids are dropped), then either fan out
over all registered oracle ids, or — only when there are none — decode under
the pubkey's canonical string key. -/
def handle_notification {α : Type} (s : SubState α)
    (subscription_id : Option Nat) (slot : Nat) (bytes : Bytes) : SubState α :=
  match subscription_id with
  | none => s
  | some sid =>
    match findA s.subscription_map sid with
    | none => s
    | some pk =>
      match (findA s.pubkey_to_oracle_ids pk).getD [] with
      | [] => apply_oracle_update slot bytes s pk.str
      | oid :: rest => (oid :: rest).foldl (apply_oracle_update slot bytes) s

/-- The legacy fallback of the confirmation branch: `pop(0)` from
`pending_subscriptions` if nonempty, else log a warning and drop. -/
def confirmation_fallback {α : Type} (s : SubState α)
    (subscription_id : Nat) : SubState α :=
  match s.pending_subscriptions with
  | [] => s
  | pk :: rest =>
    { s with
      pending_subscriptions := rest,
      subscription_map := insertA s.subscription_map subscription_id pk,
      pubkey_to_subscription := insertA s.pubkey_to_subscription pk subscription_id }

/-- The subscription-confirmation branch of the read loop: pop the echoed
request id from `inflight_subscribes`, record both directions of the
address↔subscription-id mapping and point every oracle id of that pubkey at
the new subscription id; an unknown or absent request id goes to the
fallback. -/
def handle_confirmation {α : Type} (s : SubState α) (request_id : Option Nat)
    (subscription_id : Nat) : SubState α :=
  match request_id with
  | none => confirmation_fallback s subscription_id
  | some rid =>
    match findA s.inflight_subscribes rid with
    | none => confirmation_fallback s subscription_id
    | some (pk, _oid) =>
      let oids := (findA s.pubkey_to_oracle_ids pk).getD []
      { s with
        inflight_subscribes := eraseA s.inflight_subscribes rid,
        subscription_map := insertA s.subscription_map subscription_id pk,
        pubkey_to_subscription := insertA s.pubkey_to_subscription pk subscription_id,
        oracle_id_to_subscription :=
          oids.foldl (fun m oid => insertA m oid subscription_id)
            s.oracle_id_to_subscription }

/-- The `ConnectionClosed` / connection-error handler in `_subscribe_ws`:
drop the socket and clear the subscription maps and the in-flight set;
everything else (caches, decoders, the request-id counter) is kept. -/
def handle_disconnect {α : Type} (s : SubState α) : SubState α :=
  { s with
    ws := false,
    subscription_map := [],
    pubkey_to_subscription := [],
    inflight_subscribes := [] }

/-- `request_id_counter += 1` followed by `request_id = request_id_counter`. -/
def next_request_id {α : Type} (s : SubState α) : Nat × SubState α :=
  (s.request_id_counter + 1, { s with request_id_counter := s.request_id_counter + 1 })

/-- `n` successive request-id allocations, as performed by successive
subscribe sends. -/
def issue_ids {α : Type} (s : SubState α) : Nat → List Nat × SubState α
  | 0 => ([], s)
  | n + 1 =>
    let p := next_request_id s
    let q := issue_ids p.2 n
    (p.1 :: q.1, q.2)

/-- Membership-guarded append: `set.add` on the duplicate-free-list model of
a Python set. -/
def setAdd (l : List String) (x : String) : List String :=
  if l.contains x then l else l ++ [x]

/-- The trailing send block of `add_account`: if connected (and the pubkey
still unsubscribed after the recheck), allocate a request id, record it
in-flight, and send the `accountSubscribe` frame. -/
def add_account_send {α : Type} (s2 : SubState α) (pubkey : Pubkey)
    (oracle_id : Option String) : SubState α × List Frame :=
  if s2.ws then
    match findA s2.pubkey_to_subscription pubkey with
    | some _ => (s2, [])
    | none =>
      let rid := s2.request_id_counter + 1
      ({ s2 with
         request_id_counter := rid,
         inflight_subscribes := insertA s2.inflight_subscribes rid (pubkey, oracle_id) },
       [Frame.subscribeFrame rid pubkey])
  else (s2, [])

/-- `add_account(pubkey, decode, initial_data, oracle_id)`.
`fetch_result` is the outcome of the snapshot-fetch collaborator
(`get_account_data_and_slot`); `none` models the caught exception.  Returns
the new state and the wire frames sent. -/
def add_account {α : Type} (s : SubState α) (pubkey : Pubkey)
    (decode : Decoder α) (initial_data : Option (DataAndSlot α))
    (oracle_id : Option String) (fetch_result : Option (DataAndSlot α)) :
    SubState α × List Frame :=
  let key := oracle_id.getD pubkey.str
  match findA s.pubkey_to_subscription pubkey with
  | some sid =>
    -- pubkey already subscribed: only register the oracle-id mapping
    match oracle_id with
    | some oid =>
      ({ s with
         pubkey_to_oracle_ids := insertA s.pubkey_to_oracle_ids pubkey
           (setAdd ((findA s.pubkey_to_oracle_ids pubkey).getD []) oid),
         oracle_id_to_subscription := insertA s.oracle_id_to_subscription oid sid,
         decode_map := insertA s.decode_map key decode,
         data_map :=
           match initial_data with
           | some d => insertA s.data_map key d
           | none => s.data_map }, [])
    | none => (s, [])
  | none =>
    -- store decoder and initial data; reuse a cached value as initial data
    let initial1 : Option (DataAndSlot α) :=
      match initial_data with
      | some d => some d
      | none => findA s.data_map key
    let s1 : SubState α :=
      { s with
        decode_map := insertA s.decode_map key decode,
        data_map :=
          match initial_data with
          | some d => insertA s.data_map key d
          | none => s.data_map,
        pubkey_to_oracle_ids :=
          match oracle_id with
          | some oid =>
            insertA s.pubkey_to_oracle_ids pubkey
              (setAdd ((findA s.pubkey_to_oracle_ids pubkey).getD []) oid)
          | none => s.pubkey_to_oracle_ids }
    -- fetch the initial data if still absent; a fetch error prints and returns
    match initial1 with
    | none =>
      match fetch_result with
      | none => (s1, [])
      | some fd =>
        add_account_send { s1 with data_map := insertA s1.data_map key fd }
          pubkey oracle_id
    | some _ => add_account_send s1 pubkey oracle_id

/-- The tail of `remove_account`: if the pubkey has no underlying
subscription, return; otherwise send a best-effort unsubscribe frame (when
connected) and purge the subscription maps plus the canonical string key's
decoder/value/initial-value entries. -/
def remove_account_purge {α : Type} (s1 : SubState α) (pubkey : Pubkey) :
    SubState α × List Frame :=
  match findA s1.pubkey_to_subscription pubkey with
  | none => (s1, [])
  | some sid =>
    ({ s1 with
       subscription_map := eraseA s1.subscription_map sid,
       pubkey_to_subscription := eraseA s1.pubkey_to_subscription pubkey,
       decode_map := eraseA s1.decode_map pubkey.str,
       data_map := eraseA s1.data_map pubkey.str,
       initial_data_map := eraseA s1.initial_data_map pubkey.str },
     if s1.ws then [Frame.unsubscribeFrame sid] else [])

/-- The `oracle_id is not None` branch of `remove_account`, for a pubkey
whose oracle-id set `oids` is present: discard the oracle id and delete its
per-key entries; if other oracle ids remain, return without touching the
wire subscription, else fall through to the purge. -/
def remove_account_oracle {α : Type} (s : SubState α) (pubkey : Pubkey)
    (oid : String) (oids : List String) : SubState α × List Frame :=
  let s1 : SubState α :=
    { s with
      pubkey_to_oracle_ids := insertA s.pubkey_to_oracle_ids pubkey (oids.erase oid),
      oracle_id_to_subscription := eraseA s.oracle_id_to_subscription oid,
      decode_map := eraseA s.decode_map oid,
      data_map := eraseA s.data_map oid }
  if (match findA s1.pubkey_to_oracle_ids pubkey with
      | some l => !l.isEmpty
      | none => false) then (s1, [])
  else remove_account_purge s1 pubkey

/-- The `oracle_id is None` branch of `remove_account`, for a pubkey whose
oracle-id set `oids` is present: delete every oracle id's entries and the
pubkey's oracle-id set, then fall through to the purge. -/
def remove_account_all {α : Type} (s : SubState α) (pubkey : Pubkey)
    (oids : List String) : SubState α × List Frame :=
  remove_account_purge
    { s with
      oracle_id_to_subscription :=
        oids.foldl (fun m oid => eraseA m oid) s.oracle_id_to_subscription,
      decode_map := oids.foldl (fun m oid => eraseA m oid) s.decode_map,
      data_map := oids.foldl (fun m oid => eraseA m oid) s.data_map,
      pubkey_to_oracle_ids := eraseA s.pubkey_to_oracle_ids pubkey }
    pubkey

/-- `remove_account(pubkey, oracle_id)`: delete the given oracle id's
decoder/value (or all of them when no oracle id is given); if oracle ids
remain, stop; otherwise, if the pubkey has an underlying subscription, send a
best-effort unsubscribe frame and purge all registry state for the address,
including its canonical string key's entries. -/
def remove_account {α : Type} (s : SubState α) (pubkey : Pubkey)
    (oracle_id : Option String) : SubState α × List Frame :=
  match oracle_id with
  | some oid =>
    match findA s.pubkey_to_oracle_ids pubkey with
    | some oids => remove_account_oracle s pubkey oid oids
    | none => remove_account_purge s pubkey
  | none =>
    match findA s.pubkey_to_oracle_ids pubkey with
    | some oids => remove_account_all s pubkey oids
    | none => remove_account_purge s pubkey

/-- `unsubscribe()`: full shutdown — stop the loop, cancel the task, send
best-effort unsubscribe frames for every live subscription id, close the
socket and clear every map, resetting the request-id counter to zero. -/
def unsubscribe {α : Type} (s : SubState α) : SubState α × List Frame :=
  (⟨false, false, false, [], [], [], [], [], [], [], [], 0, []⟩,
   if s.ws then s.subscription_map.map (fun p => Frame.unsubscribeFrame p.1) else [])

/-! ### Derived single-cell views of the merge rule (C1) -/

/-- The effect of `_update_data` on the single cache cell it touches. -/
def merge_cell {α : Type} (cur : Option (DataAndSlot α)) (nd : DataAndSlot α) :
    Option (DataAndSlot α) :=
  match cur with
  | none => some nd
  | some c => if c.slot ≤ nd.slot then some nd else some c

/-- `merge_cell` once a value is cached: keep the new value on `new.slot >=
cached.slot`, else the old one. -/
def cell_step {α : Type} (c d : DataAndSlot α) : DataAndSlot α :=
  if c.slot ≤ d.slot then d else c

/-- A sequence of `_update_data` calls for one key. -/
def apply_updates {α : Type} (s : SubState α) (key : String)
    (us : List (DataAndSlot α)) : SubState α :=
  us.foldl (fun st d => update_data st key (some d)) s

/-- Largest slot among a list of updates (0 for the empty list). -/
def maxSlot {α : Type} (us : List (DataAndSlot α)) : Nat :=
  us.foldl (fun m d => max m d.slot) 0

/-! ### Concrete example states for witnesses and counterexamples -/

/-- The address used by the concrete examples below. -/
def exA : Pubkey := ⟨"A"⟩

/-- A state where address A carries its canonical string key (with its own
decoder) alongside the synthetic key "A-1", with a live subscription 7. -/
def c2_state : SubState Nat :=
  { initialState Nat with
    ws := true,
    subscription_map := [(7, exA)],
    pubkey_to_oracle_ids := [(exA, ["A-1"])],
    decode_map := [("A", fun _ => some 2), ("A-1", fun _ => some 1)] }

/-- A state where address A carries two synthetic keys, the first with a
failing decoder, the second with a working one, plus a cached value. -/
def c2w_state : SubState Nat :=
  { initialState Nat with
    ws := true,
    subscription_map := [(7, exA)],
    pubkey_to_oracle_ids := [(exA, ["A-1", "A-2"])],
    decode_map := [("A-1", fun _ => none), ("A-2", fun _ => some 5)],
    data_map := [("A-1", ⟨50, 1⟩)] }

/-- A state where address A (subscription 5) carries its canonical key "A"
and exactly one synthetic key "A-1", with cached values for both. -/
def c3_state : SubState Nat :=
  { initialState Nat with
    ws := true,
    subscription_map := [(5, exA)],
    pubkey_to_subscription := [(exA, 5)],
    pubkey_to_oracle_ids := [(exA, ["A-1"])],
    oracle_id_to_subscription := [("A-1", 5)],
    decode_map := [("A", fun _ => some 2), ("A-1", fun _ => some 1)],
    data_map := [("A", ⟨10, 0⟩), ("A-1", ⟨11, 1⟩)] }

/-- `c3_state` with an additional synthetic sibling "A-2". -/
def c3_state2 : SubState Nat :=
  { c3_state with
    pubkey_to_oracle_ids := [(exA, ["A-1", "A-2"])],
    oracle_id_to_subscription := [("A-1", 5), ("A-2", 5)],
    decode_map :=
      [("A", fun _ => some 2), ("A-1", fun _ => some 1), ("A-2", fun _ => some 3)],
    data_map := [("A", ⟨10, 0⟩), ("A-1", ⟨11, 1⟩), ("A-2", ⟨12, 2⟩)] }

/-- A state where address A is already subscribed (subscription id 9),
registered through the synthetic key "A-1" only. -/
def c4_sub_state : SubState Nat :=
  { initialState Nat with
    ws := true,
    subscription_map := [(9, exA)],
    pubkey_to_subscription := [(exA, 9)],
    pubkey_to_oracle_ids := [(exA, ["A-1"])],
    oracle_id_to_subscription := [("A-1", 9)],
    decode_map := [("A-1", fun _ => some 1)] }

/-- The state reached from a fresh connected manager after one
`add_account("A")` whose subscribe (request id 1) is still unconfirmed. -/
def c7_state : SubState Nat :=
  (add_account { initialState Nat with ws := true } exA (fun _ => some 1)
    (some ⟨1, 0⟩) none none).1

/-! ### Association-list lemmas -/

theorem findA_insertA_self {κ ν : Type} [DecidableEq κ] (m : List (κ × ν))
    (k : κ) (v : ν) : findA (insertA m k v) k = some v := by
  induction m with
  | nil => simp [insertA, findA]
  | cons p rest ih =>
    obtain ⟨k0, v0⟩ := p
    by_cases h : k0 = k
    · simp [insertA, h, findA]
    · simp [insertA, h, findA, ih]

theorem findA_insertA_ne {κ ν : Type} [DecidableEq κ] (m : List (κ × ν))
    {k k' : κ} (v : ν) (h : k' ≠ k) :
    findA (insertA m k v) k' = findA m k' := by
  induction m with
  | nil => simp [insertA, findA, Ne.symm h]
  | cons p rest ih =>
    obtain ⟨k0, v0⟩ := p
    by_cases h0 : k0 = k
    · subst h0; simp [insertA, findA, Ne.symm h]
    · simp only [insertA, findA, if_neg h0]
      by_cases h1 : k0 = k' <;> simp [h1, ih]

theorem findA_eraseA_self {κ ν : Type} [DecidableEq κ] (m : List (κ × ν))
    (k : κ) : findA (eraseA m k) k = none := by
  induction m with
  | nil => simp [eraseA, findA]
  | cons p rest ih =>
    obtain ⟨k0, v0⟩ := p
    by_cases h : k0 = k
    · simp [eraseA, h, ih]
    · simp [eraseA, h, findA, ih]

theorem findA_eraseA_ne {κ ν : Type} [DecidableEq κ] (m : List (κ × ν))
    {k k' : κ} (h : k' ≠ k) : findA (eraseA m k) k' = findA m k' := by
  induction m with
  | nil => simp [eraseA, findA]
  | cons p rest ih =>
    obtain ⟨k0, v0⟩ := p
    by_cases h0 : k0 = k
    · subst h0; simp [eraseA, findA, Ne.symm h, ih]
    · simp only [eraseA, findA, if_neg h0]
      by_cases h1 : k0 = k' <;> simp [h1, findA, ih]

/-! ### Merge-rule lemmas (C1) -/

theorem update_data_find_self {α : Type} (s : SubState α) (key : String)
    (nd : DataAndSlot α) :
    findA (update_data s key (some nd)).data_map key
      = merge_cell (findA s.data_map key) nd := by
  unfold update_data merge_cell
  cases h : findA s.data_map key with
  | none => simp [h, findA_insertA_self]
  | some c =>
    by_cases hs : c.slot ≤ nd.slot <;> simp [h, hs, findA_insertA_self]

theorem update_data_find_ne {α : Type} (s : SubState α) {key k' : String}
    (nd? : Option (DataAndSlot α)) (h : k' ≠ key) :
    findA (update_data s key nd?).data_map k' = findA s.data_map k' := by
  unfold update_data
  cases nd? with
  | none => rfl
  | some nd =>
    cases hf : findA s.data_map key with
    | none => simp [findA_insertA_ne _ _ h]
    | some c =>
      by_cases hs : c.slot ≤ nd.slot <;> simp [hs, findA_insertA_ne _ _ h]

theorem update_data_decode_map {α : Type} (s : SubState α) (key : String)
    (nd? : Option (DataAndSlot α)) :
    (update_data s key nd?).decode_map = s.decode_map := by
  unfold update_data
  cases nd? with
  | none => rfl
  | some nd =>
    cases findA s.data_map key with
    | none => rfl
    | some c => by_cases hs : c.slot ≤ nd.slot <;> simp [hs]

theorem merge_cell_some {α : Type} (c d : DataAndSlot α) :
    merge_cell (some c) d = some (cell_step c d) := by
  by_cases h : c.slot ≤ d.slot <;> simp [merge_cell, cell_step, h]

theorem foldl_merge_cell_some {α : Type} (t : List (DataAndSlot α))
    (c : DataAndSlot α) :
    t.foldl merge_cell (some c) = some (t.foldl cell_step c) := by
  induction t generalizing c with
  | nil => rfl
  | cons d t ih =>
    simp only [List.foldl_cons]
    rw [merge_cell_some]
    exact ih _

theorem apply_updates_find {α : Type} (s : SubState α) (key : String)
    (us : List (DataAndSlot α)) :
    findA (apply_updates s key us).data_map key
      = us.foldl merge_cell (findA s.data_map key) := by
  induction us generalizing s with
  | nil => rfl
  | cons u t ih =>
    show findA (apply_updates (update_data s key (some u)) key t).data_map key = _
    rw [ih, update_data_find_self]
    simp [List.foldl_cons]

theorem foldl_max_slot {α : Type} (us : List (DataAndSlot α)) :
    ∀ a : Nat, us.foldl (fun m d => max m d.slot) a = max a (maxSlot us) := by
  induction us with
  | nil => intro a; simp [maxSlot]
  | cons u t ih =>
    intro a
    have hcons : maxSlot (u :: t) = max (max 0 u.slot) (maxSlot t) := by
      unfold maxSlot
      simp only [List.foldl_cons]
      exact ih _
    simp only [List.foldl_cons]
    rw [ih, hcons]
    omega

theorem maxSlot_cons {α : Type} (u : DataAndSlot α) (t : List (DataAndSlot α)) :
    maxSlot (u :: t) = max u.slot (maxSlot t) := by
  have h : maxSlot (u :: t)
      = List.foldl (fun m d => max m d.slot) (max 0 u.slot) t := rfl
  rw [h, foldl_max_slot]
  omega

theorem filter_getLast_absorb {α : Type} (a d : DataAndSlot α)
    (t : List (DataAndSlot α)) (M : Nat) (haM : a.slot ≤ M) (hdM : d.slot ≤ M) :
    ((a :: d :: t).filter (fun x => x.slot == M)).getLast?
      = ((cell_step a d :: t).filter (fun x => x.slot == M)).getLast? := by
  unfold cell_step
  by_cases hab : a.slot ≤ d.slot
  · simp only [if_pos hab]
    by_cases hd : d.slot = M
    · by_cases ha : a.slot = M <;>
        simp [List.filter_cons, hd, ha, List.getLast?_cons_cons]
    · have ha : ¬ a.slot = M := by omega
      simp [List.filter_cons, hd, ha]
  · simp only [if_neg hab]
    have hd : ¬ d.slot = M := by omega
    simp [List.filter_cons, hd]

theorem cell_fold_char {α : Type} (us : List (DataAndSlot α)) :
    ∀ a : DataAndSlot α,
      (us.foldl cell_step a).slot = max a.slot (maxSlot us)
      ∧ some (us.foldl cell_step a)
          = ((a :: us).filter
              (fun d => d.slot == max a.slot (maxSlot us))).getLast? := by
  induction us with
  | nil =>
    intro a
    refine ⟨by simp [maxSlot], ?_⟩
    simp [maxSlot, List.filter_cons]
  | cons d t ih =>
    intro a
    obtain ⟨ih1, ih2⟩ := ih (cell_step a d)
    have hb : (cell_step a d).slot = max a.slot d.slot := by
      unfold cell_step; split <;> omega
    have hM : max a.slot (maxSlot (d :: t)) = max (cell_step a d).slot (maxSlot t) := by
      rw [maxSlot_cons, hb]; omega
    refine ⟨?_, ?_⟩
    · simp only [List.foldl_cons]
      rw [ih1, hM]
    · simp only [List.foldl_cons]
      rw [hM, ih2]
      exact (filter_getLast_absorb a d t _ (by omega) (by omega)).symm

/-! ### Fan-out lemmas (C2) -/

theorem apply_oracle_update_decode_map {α : Type} (slot : Nat) (b : Bytes)
    (s : SubState α) (oid : String) :
    (apply_oracle_update slot b s oid).decode_map = s.decode_map := by
  unfold apply_oracle_update
  split
  · rfl
  · split
    · rfl
    · exact update_data_decode_map s oid _

theorem apply_oracle_update_find_ne {α : Type} (slot : Nat) (b : Bytes)
    (s : SubState α) {oid k : String} (h : k ≠ oid) :
    findA (apply_oracle_update slot b s oid).data_map k
      = findA s.data_map k := by
  unfold apply_oracle_update
  split
  · rfl
  · split
    · rfl
    · exact update_data_find_ne s _ h

theorem apply_oracle_update_find_self {α : Type} (slot : Nat) (b : Bytes)
    (s : SubState α) (oid : String) :
    findA (apply_oracle_update slot b s oid).data_map oid
      = match findA s.decode_map oid with
        | none => findA s.data_map oid
        | some d =>
          match d b with
          | none => findA s.data_map oid
          | some v => merge_cell (findA s.data_map oid) ⟨slot, v⟩ := by
  unfold apply_oracle_update
  split
  · rfl
  · split
    · rfl
    · exact update_data_find_self s oid _

theorem apply_oracle_update_decode_fail {α : Type} (slot : Nat) (b : Bytes)
    (s : SubState α) {oid : String} {d : Decoder α}
    (hd : findA s.decode_map oid = some d) (hdb : d b = none) :
    apply_oracle_update slot b s oid = s := by
  unfold apply_oracle_update
  rw [hd]
  show (match d b with
        | none => s
        | some v => update_data s oid (some ⟨slot, v⟩)) = s
  rw [hdb]

theorem apply_oracle_update_decode_ok {α : Type} (slot : Nat) (b : Bytes)
    (s : SubState α) {oid : String} {d : Decoder α} {v : α}
    (hd : findA s.decode_map oid = some d) (hdb : d b = some v) :
    findA (apply_oracle_update slot b s oid).data_map oid
      = merge_cell (findA s.data_map oid) ⟨slot, v⟩ := by
  unfold apply_oracle_update
  rw [hd]
  show findA (match d b with
        | none => s
        | some v => update_data s oid (some ⟨slot, v⟩)).data_map oid = _
  rw [hdb]
  exact update_data_find_self s oid _

theorem fanout_foldl_ne {α : Type} (slot : Nat) (b : Bytes) {k : String} :
    ∀ (oids : List String) (s : SubState α), k ∉ oids →
      findA (oids.foldl (apply_oracle_update slot b) s).data_map k
        = findA s.data_map k := by
  intro oids
  induction oids with
  | nil => intro s _; rfl
  | cons o t ih =>
    intro s hk
    simp only [List.mem_cons, not_or] at hk
    simp only [List.foldl_cons]
    rw [ih _ hk.2, apply_oracle_update_find_ne _ _ _ hk.1]

theorem fanout_foldl_decode_map {α : Type} (slot : Nat) (b : Bytes) :
    ∀ (oids : List String) (s : SubState α),
      (oids.foldl (apply_oracle_update slot b) s).decode_map = s.decode_map := by
  intro oids
  induction oids with
  | nil => intro s; rfl
  | cons o t ih =>
    intro s
    simp only [List.foldl_cons]
    rw [ih, apply_oracle_update_decode_map]

theorem fanout_foldl_member {α : Type} (slot : Nat) (b : Bytes) {oid : String} :
    ∀ (oids : List String) (s : SubState α), oids.Nodup → oid ∈ oids →
      findA (oids.foldl (apply_oracle_update slot b) s).data_map oid
        = findA (apply_oracle_update slot b s oid).data_map oid := by
  intro oids
  induction oids with
  | nil => intro s _ hm; exact absurd hm (List.not_mem_nil oid)
  | cons o t ih =>
    intro s hnd hm
    simp only [List.foldl_cons]
    rcases List.mem_cons.mp hm with h | h
    · subst h
      have hnotin : oid ∉ t := (List.nodup_cons.mp hnd).1
      exact fanout_foldl_ne slot b t _ hnotin
    · have hne : oid ≠ o := by
        rintro rfl
        exact (List.nodup_cons.mp hnd).1 h
      rw [ih _ (List.nodup_cons.mp hnd).2 h]
      rw [apply_oracle_update_find_self, apply_oracle_update_find_self]
      rw [apply_oracle_update_decode_map, apply_oracle_update_find_ne _ _ _ hne]

/-! ### Claim theorems -/

/-- Claim C1: `_update_data` applied to a `none` value leaves the cache
unchanged, and otherwise replaces the cached slot-stamped value iff there
is no cached value or `new.slot >= cached.slot` (last-write-wins on equal
slot); consequently, after applying updates with slots `s1..sn` in any
order to an initially empty cell, the cached value's slot equals
`max(s1..sn)` and its payload is the one of the last-applied update
bearing that maximal slot. -/
theorem C1_mergeUpdate_slot_monotonic {α : Type} (s : SubState α)
    (key : String) (nd : DataAndSlot α) (us : List (DataAndSlot α)) :
    (update_data s key none = s)
    ∧ (findA s.data_map key = none →
        findA (update_data s key (some nd)).data_map key = some nd)
    ∧ (∀ c, findA s.data_map key = some c → c.slot ≤ nd.slot →
        findA (update_data s key (some nd)).data_map key = some nd)
    ∧ (∀ c, findA s.data_map key = some c → nd.slot < c.slot →
        update_data s key (some nd) = s)
    ∧ (findA s.data_map key = none → us ≠ [] →
        ∃ r, findA (apply_updates s key us).data_map key = some r
          ∧ r.slot = maxSlot us
          ∧ some r = (us.filter (fun d => d.slot == maxSlot us)).getLast?) := by
  refine ⟨rfl, ?_, ?_, ?_, ?_⟩
  · intro h
    unfold update_data
    simp [h, findA_insertA_self]
  · intro c hc hle
    unfold update_data
    simp [hc, hle, findA_insertA_self]
  · intro c hc hlt
    unfold update_data
    simp only [hc]
    rw [if_neg (by omega : ¬ c.slot ≤ nd.slot)]
  · intro h0 hne
    cases us with
    | nil => exact absurd rfl hne
    | cons u t =>
      obtain ⟨h1, h2⟩ := cell_fold_char t u
      refine ⟨t.foldl cell_step u, ?_, ?_, ?_⟩
      · rw [apply_updates_find, h0]
        simp only [List.foldl_cons]
        rw [show merge_cell none u = some u from rfl, foldl_merge_cell_some]
      · rw [h1, maxSlot_cons]
      · simp only [maxSlot_cons]
        exact h2

/-- Witness for C1 at a concrete out-of-order update sequence with a slot
tie: the surviving payload is the one from the later update at slot 3. -/
theorem C1_witness :
    ∃ r, findA (apply_updates (initialState Nat) "k"
          [⟨1, 10⟩, ⟨3, 20⟩, ⟨3, 30⟩, ⟨2, 40⟩]).data_map "k" = some r
      ∧ r.slot = maxSlot [(⟨1, 10⟩ : DataAndSlot Nat), ⟨3, 20⟩, ⟨3, 30⟩, ⟨2, 40⟩]
      ∧ some r
          = ([(⟨1, 10⟩ : DataAndSlot Nat), ⟨3, 20⟩, ⟨3, 30⟩, ⟨2, 40⟩].filter
              (fun d => d.slot ==
                maxSlot [(⟨1, 10⟩ : DataAndSlot Nat), ⟨3, 20⟩, ⟨3, 30⟩, ⟨2, 40⟩])).getLast? :=
  (C1_mergeUpdate_slot_monotonic (initialState Nat) "k" ⟨0, 0⟩
    [⟨1, 10⟩, ⟨3, 20⟩, ⟨3, 30⟩, ⟨2, 40⟩]).2.2.2.2 rfl (by decide)

/-- Claim C8: on every Connected→Disconnected transition (read error or
connection close) the subscription-id map, the address→subscription-id map
and the in-flight request set are cleared, while every logical key's cached
value and decoder are left unchanged (stale-but-present). -/
theorem C8_disconnect_clears_wire_state_keeps_cache {α : Type}
    (s : SubState α) :
    (handle_disconnect s).subscription_map = []
    ∧ (handle_disconnect s).pubkey_to_subscription = []
    ∧ (handle_disconnect s).inflight_subscribes = []
    ∧ (handle_disconnect s).data_map = s.data_map
    ∧ (handle_disconnect s).decode_map = s.decode_map
    ∧ (handle_disconnect s).request_id_counter = s.request_id_counter
    ∧ (handle_disconnect s).ws = false :=
  ⟨rfl, rfl, rfl, rfl, rfl, rfl, rfl⟩

/-- Claim C9: after `unsubscribe` the manager is fully stopped with every
registry and correlator map empty and the request-id counter reset to
zero; a second `unsubscribe` leaves the same fully cleared state and sends
nothing (idempotent, no error path in the model). -/
theorem C9_unsubscribe_complete_idempotent {α : Type} (s : SubState α) :
    ((unsubscribe s).1.subscription_map = []
      ∧ (unsubscribe s).1.pubkey_to_subscription = []
      ∧ (unsubscribe s).1.decode_map = []
      ∧ (unsubscribe s).1.data_map = []
      ∧ (unsubscribe s).1.initial_data_map = []
      ∧ (unsubscribe s).1.pending_subscriptions = []
      ∧ (unsubscribe s).1.pubkey_to_oracle_ids = []
      ∧ (unsubscribe s).1.oracle_id_to_subscription = []
      ∧ (unsubscribe s).1.inflight_subscribes = []
      ∧ (unsubscribe s).1.request_id_counter = 0
      ∧ (unsubscribe s).1.ws = false
      ∧ (unsubscribe s).1.task = false
      ∧ (unsubscribe s).1.running = false)
    ∧ unsubscribe (unsubscribe s).1 = ((unsubscribe s).1, []) :=
  ⟨⟨rfl, rfl, rfl, rfl, rfl, rfl, rfl, rfl, rfl, rfl, rfl, rfl, rfl⟩, rfl⟩

/-- Claim C10: `get_data` on a `Pubkey` with no registered oracle ids reads
the cache entry of the address's canonical string key; with exactly one
registered oracle id it reads that oracle id's entry; on a string key it
reads exactly that entry (or `none`).  `get_data` is a pure read: it
returns a value without producing a new state. -/
theorem C10_get_data_resolution {α : Type} (s : SubState α) (pk : Pubkey)
    (k : String) :
    ((findA s.pubkey_to_oracle_ids pk = none
        ∨ findA s.pubkey_to_oracle_ids pk = some []) →
      get_data s (.inl pk) = findA s.data_map pk.str)
    ∧ (findA s.pubkey_to_oracle_ids pk = some [k] →
        get_data s (.inl pk) = findA s.data_map k)
    ∧ get_data s (.inr k) = findA s.data_map k := by
  refine ⟨?_, ?_, rfl⟩
  · rintro (h | h) <;> simp [get_data, h]
  · intro h
    simp [get_data, h]

/-- Witness for C10: a state where address B has exactly one oracle id and
address A has none. -/
theorem C10_witness :
    get_data { initialState Nat with
        pubkey_to_oracle_ids := [(⟨"B"⟩, ["B-1"])],
        data_map := [("A", ⟨1, 5⟩), ("B-1", ⟨2, 6⟩)] } (.inl ⟨"A"⟩)
      = findA [("A", (⟨1, 5⟩ : DataAndSlot Nat)), ("B-1", ⟨2, 6⟩)] "A"
    ∧ get_data { initialState Nat with
        pubkey_to_oracle_ids := [(⟨"B"⟩, ["B-1"])],
        data_map := [("A", ⟨1, 5⟩), ("B-1", ⟨2, 6⟩)] } (.inl ⟨"B"⟩)
      = findA [("A", (⟨1, 5⟩ : DataAndSlot Nat)), ("B-1", ⟨2, 6⟩)] "B-1" :=
  ⟨(C10_get_data_resolution _ ⟨"A"⟩ "B-1").1 (Or.inl rfl),
   (C10_get_data_resolution _ ⟨"B"⟩ "B-1").2.1 rfl⟩

theorem issue_ids_fst {α : Type} : ∀ (n : Nat) (s : SubState α),
    (issue_ids s n).1 = List.range' (s.request_id_counter + 1) n := by
  intro n
  induction n with
  | zero => intro s; rfl
  | succ n ih =>
    intro s
    show (s.request_id_counter + 1) :: (issue_ids (next_request_id s).2 n).1 = _
    rw [ih, List.range'_succ]
    rfl

/-- Claim C6: request ids issued for outbound subscribe calls are strictly
increasing and never reuse an id from before; the counter is reset to zero
only by `unsubscribe`, not on disconnect — disconnect clears just the
in-flight set (the counter and caches survive), so a late confirmation for
an old id finds no matching in-flight entry and is dropped. -/
theorem C6_request_id_lifecycle {α : Type} (s : SubState α)
    (n rid subId : Nat) :
    ((issue_ids s n).1 = List.range' (s.request_id_counter + 1) n)
    ∧ (issue_ids s n).1.Pairwise (· < ·)
    ∧ (∀ i ∈ (issue_ids s n).1, s.request_id_counter < i)
    ∧ (next_request_id s).1 = s.request_id_counter + 1
    ∧ (next_request_id s).2.request_id_counter = s.request_id_counter + 1
    ∧ (handle_disconnect s).request_id_counter = s.request_id_counter
    ∧ (handle_disconnect s).inflight_subscribes = []
    ∧ (unsubscribe s).1.request_id_counter = 0
    ∧ (s.pending_subscriptions = [] → findA s.inflight_subscribes rid = none →
        handle_confirmation s (some rid) subId = s) := by
  refine ⟨issue_ids_fst n s, ?_, ?_, rfl, rfl, rfl, rfl, rfl, ?_⟩
  · rw [issue_ids_fst]
    exact List.pairwise_lt_range' _ _
  · intro i hi
    rw [issue_ids_fst] at hi
    have := List.mem_range'_1.mp hi
    omega
  · intro h1 h2
    unfold handle_confirmation
    simp only [h2]
    unfold confirmation_fallback
    rw [h1]

/-- Witness for C6: a confirmation bearing the stale id 99 arrives while
only id 1 is in flight; it is dropped without mutating state. -/
theorem C6_witness :
    handle_confirmation
      { initialState Nat with
        request_id_counter := 1,
        inflight_subscribes := [(1, ⟨"A"⟩, none)] } (some 99) 42
      = { initialState Nat with
          request_id_counter := 1,
          inflight_subscribes := [(1, ⟨"A"⟩, none)] } :=
  (C6_request_id_lifecycle _ 0 99 42).2.2.2.2.2.2.2.2 rfl rfl

/-- Counterexample to C2 as stated: address A has its canonical string key
registered with its own decoder alongside the synthetic key "A-1"; a
notification for A updates only "A-1" and never decodes or stores anything
under the canonical key "A", so the update is not fanned out to every
logical key currently mapped to A. -/
theorem C2_counterexample :
    findA (handle_notification c2_state (some 7) 100 []).data_map "A" = none
    ∧ findA (handle_notification c2_state (some 7) 100 []).data_map "A-1"
        = some ⟨100, 1⟩
    ∧ (findA c2_state.decode_map "A").isSome = true :=
  ⟨rfl, rfl, rfl⟩

/-- Claim C2 (amended): a notification whose subscription id resolves to
address `pk` fans out to the synthetic oracle ids registered for `pk` when
any exist: each such key is decoded independently with its own decoder and
merged via the slot rule, a decode failure leaves that key's cached value
unchanged without blocking sibling keys, and every key outside the
oracle-id set — including `pk`'s own canonical string key — is untouched;
the canonical key is decoded and merged only when no oracle ids are
registered for `pk`. -/
theorem C2_notification_fanout {α : Type} (s : SubState α) (sid slot : Nat)
    (b : Bytes) (pk : Pubkey) (oids : List String)
    (hsub : findA s.subscription_map sid = some pk)
    (hoids : (findA s.pubkey_to_oracle_ids pk).getD [] = oids) :
    (oids = [] →
      handle_notification s (some sid) slot b = apply_oracle_update slot b s pk.str)
    ∧ (oids ≠ [] → oids.Nodup →
        (∀ k, k ∉ oids →
          findA (handle_notification s (some sid) slot b).data_map k
            = findA s.data_map k)
        ∧ (∀ oid ∈ oids, ∀ d, findA s.decode_map oid = some d →
            (d b = none →
              findA (handle_notification s (some sid) slot b).data_map oid
                = findA s.data_map oid)
            ∧ (∀ v, d b = some v →
                findA (handle_notification s (some sid) slot b).data_map oid
                  = merge_cell (findA s.data_map oid) ⟨slot, v⟩))) := by
  have h1 : handle_notification s (some sid) slot b
      = match (findA s.pubkey_to_oracle_ids pk).getD [] with
        | [] => apply_oracle_update slot b s pk.str
        | o :: t => (o :: t).foldl (apply_oracle_update slot b) s := by
    show (match findA s.subscription_map sid with
          | none => s
          | some pk2 =>
            match (findA s.pubkey_to_oracle_ids pk2).getD [] with
            | [] => apply_oracle_update slot b s pk2.str
            | o :: t => (o :: t).foldl (apply_oracle_update slot b) s)
        = _
    rw [hsub]
  rw [hoids] at h1
  constructor
  · intro h
    subst h
    rw [h1]
  · intro hne hnd
    cases oids with
    | nil => exact absurd rfl hne
    | cons o t =>
      have hfold : handle_notification s (some sid) slot b
          = (o :: t).foldl (apply_oracle_update slot b) s := by rw [h1]
      refine ⟨?_, ?_⟩
      · intro k hk
        rw [hfold]
        exact fanout_foldl_ne slot b (o :: t) s hk
      · intro oid hmem d hd
        refine ⟨?_, ?_⟩
        · intro hdb
          rw [hfold, fanout_foldl_member slot b (o :: t) s hnd hmem,
            apply_oracle_update_decode_fail slot b s hd hdb]
        · intro v hdb
          rw [hfold, fanout_foldl_member slot b (o :: t) s hnd hmem]
          exact apply_oracle_update_decode_ok slot b s hd hdb

/-- Witness for (amended) C2: in `c2w_state` the decoder of "A-1" fails and
the decoder of "A-2" succeeds; one notification leaves "A-1" untouched,
merges "A-2", and does not touch the canonical key "A". -/
theorem C2_witness :
    findA (handle_notification c2w_state (some 7) 100 []).data_map "A-1"
        = findA c2w_state.data_map "A-1"
    ∧ findA (handle_notification c2w_state (some 7) 100 []).data_map "A-2"
        = merge_cell (findA c2w_state.data_map "A-2") ⟨100, 5⟩
    ∧ findA (handle_notification c2w_state (some 7) 100 []).data_map "A"
        = findA c2w_state.data_map "A" :=
  have h := C2_notification_fanout c2w_state 7 100 [] exA ["A-1", "A-2"] rfl rfl
  ⟨((h.2 (by decide) (by decide)).2 "A-1" (by decide) _ rfl).1 rfl,
   ((h.2 (by decide) (by decide)).2 "A-2" (by decide) _ rfl).2 5 rfl,
   (h.2 (by decide) (by decide)).1 "A" (by decide)⟩

/-! ### Removal lemmas (C3) -/

theorem remove_account_purge_none {α : Type} (s1 : SubState α) (pk : Pubkey)
    (h : findA s1.pubkey_to_subscription pk = none) :
    remove_account_purge s1 pk = (s1, []) := by
  unfold remove_account_purge
  rw [h]

theorem remove_account_purge_some {α : Type} (s1 : SubState α) (pk : Pubkey)
    (sid : Nat) (h : findA s1.pubkey_to_subscription pk = some sid) :
    remove_account_purge s1 pk
      = ({ s1 with
           subscription_map := eraseA s1.subscription_map sid,
           pubkey_to_subscription := eraseA s1.pubkey_to_subscription pk,
           decode_map := eraseA s1.decode_map pk.str,
           data_map := eraseA s1.data_map pk.str,
           initial_data_map := eraseA s1.initial_data_map pk.str },
         if s1.ws then [Frame.unsubscribeFrame sid] else []) := by
  unfold remove_account_purge
  rw [h]

theorem remove_account_some_oid {α : Type} (s : SubState α) (pk : Pubkey)
    (oid : String) (oids : List String)
    (hoids : findA s.pubkey_to_oracle_ids pk = some oids) :
    remove_account s pk (some oid) = remove_account_oracle s pk oid oids := by
  show (match findA s.pubkey_to_oracle_ids pk with
        | some l => remove_account_oracle s pk oid l
        | none => remove_account_purge s pk) = _
  rw [hoids]

theorem remove_account_none_oid {α : Type} (s : SubState α) (pk : Pubkey)
    (oids : List String)
    (hoids : findA s.pubkey_to_oracle_ids pk = some oids) :
    remove_account s pk none = remove_account_all s pk oids := by
  show (match findA s.pubkey_to_oracle_ids pk with
        | some l => remove_account_all s pk l
        | none => remove_account_purge s pk) = _
  rw [hoids]

theorem remove_account_oracle_keep {α : Type} (s : SubState α) (pk : Pubkey)
    (oid : String) (oids : List String) (herase : oids.erase oid ≠ []) :
    remove_account_oracle s pk oid oids
      = ({ s with
           pubkey_to_oracle_ids := insertA s.pubkey_to_oracle_ids pk (oids.erase oid),
           oracle_id_to_subscription := eraseA s.oracle_id_to_subscription oid,
           decode_map := eraseA s.decode_map oid,
           data_map := eraseA s.data_map oid }, []) := by
  have hc : (!(oids.erase oid).isEmpty) = true := by
    cases hE : oids.erase oid with
    | nil => exact absurd hE herase
    | cons a l => rfl
  simp only [remove_account_oracle, findA_insertA_self, hc, if_true]

theorem remove_account_oracle_last {α : Type} (s : SubState α) (pk : Pubkey)
    (oid : String) (oids : List String) (herase : oids.erase oid = []) :
    remove_account_oracle s pk oid oids
      = remove_account_purge
          { s with
            pubkey_to_oracle_ids := insertA s.pubkey_to_oracle_ids pk (oids.erase oid),
            oracle_id_to_subscription := eraseA s.oracle_id_to_subscription oid,
            decode_map := eraseA s.decode_map oid,
            data_map := eraseA s.data_map oid } pk := by
  simp only [remove_account_oracle, findA_insertA_self, herase]
  rfl

/-- Counterexample to C3 as stated: in `c3_state`, address A has logical
keys "A" (canonical, with a cached value) and "A-1" (synthetic);
`remove_account(A, "A-1")` sends an unsubscribe frame and also purges the
canonical key's cached value, decoder and the wire subscription, instead of
leaving K1 intact. -/
theorem C3_counterexample :
    (remove_account c3_state exA (some "A-1")).2 = [Frame.unsubscribeFrame 5]
    ∧ findA (remove_account c3_state exA (some "A-1")).1.data_map "A" = none
    ∧ findA (remove_account c3_state exA (some "A-1")).1.decode_map "A" = none
    ∧ findA (remove_account c3_state exA (some "A-1")).1.pubkey_to_subscription
        exA = none :=
  ⟨rfl, rfl, rfl, rfl⟩

/-- Claim C3 (amended): `remove_account(A, K2)` deletes only K2's decoder
and cached value as long as other synthetic keys for A remain, leaving the
canonical key K1 and the wire subscription untouched; but when K2 is the
last synthetic key for A, the call falls through to the teardown path: it
sends an unsubscribe frame and purges all registry state for A, including
K1's decoder and cached value. -/
theorem C3_remove_feed {α : Type} (s : SubState α) (pk : Pubkey)
    (oid : String) (oids : List String) (sid : Nat)
    (hoids : findA s.pubkey_to_oracle_ids pk = some oids)
    (hne : pk.str ≠ oid) :
    (oids.erase oid ≠ [] →
      (remove_account s pk (some oid)).2 = []
      ∧ (remove_account s pk (some oid)).1.pubkey_to_subscription
          = s.pubkey_to_subscription
      ∧ (remove_account s pk (some oid)).1.subscription_map = s.subscription_map
      ∧ (∀ k, k ≠ oid →
          findA (remove_account s pk (some oid)).1.decode_map k
              = findA s.decode_map k
          ∧ findA (remove_account s pk (some oid)).1.data_map k
              = findA s.data_map k)
      ∧ findA (remove_account s pk (some oid)).1.data_map oid = none
      ∧ findA (remove_account s pk (some oid)).1.decode_map oid = none
      ∧ findA (remove_account s pk (some oid)).1.oracle_id_to_subscription oid
          = none)
    ∧ (oids.erase oid = [] →
        findA s.pubkey_to_subscription pk = some sid → s.ws = true →
        (remove_account s pk (some oid)).2 = [Frame.unsubscribeFrame sid]
        ∧ findA (remove_account s pk (some oid)).1.data_map pk.str = none
        ∧ findA (remove_account s pk (some oid)).1.decode_map pk.str = none
        ∧ findA (remove_account s pk (some oid)).1.data_map oid = none
        ∧ findA (remove_account s pk (some oid)).1.pubkey_to_subscription pk = none
        ∧ findA (remove_account s pk (some oid)).1.subscription_map sid = none
        ∧ findA (remove_account s pk (some oid)).1.oracle_id_to_subscription oid
            = none) := by
  constructor
  · intro herase
    have hred := (remove_account_some_oid s pk oid oids hoids).trans
      (remove_account_oracle_keep s pk oid oids herase)
    rw [hred]
    refine ⟨rfl, rfl, rfl, ?_, ?_, ?_, ?_⟩
    · intro k hk
      exact ⟨findA_eraseA_ne _ hk, findA_eraseA_ne _ hk⟩
    · exact findA_eraseA_self _ _
    · exact findA_eraseA_self _ _
    · exact findA_eraseA_self _ _
  · intro herase hsub hws
    have hred := (remove_account_some_oid s pk oid oids hoids).trans
      (remove_account_oracle_last s pk oid oids herase)
    have hsub1 : findA
        ({ s with
           pubkey_to_oracle_ids := insertA s.pubkey_to_oracle_ids pk (oids.erase oid),
           oracle_id_to_subscription := eraseA s.oracle_id_to_subscription oid,
           decode_map := eraseA s.decode_map oid,
           data_map := eraseA s.data_map oid } :
          SubState α).pubkey_to_subscription pk = some sid := hsub
    rw [hred, remove_account_purge_some _ _ sid hsub1]
    refine ⟨?_, ?_, ?_, ?_, ?_, ?_, ?_⟩
    · show (if s.ws then [Frame.unsubscribeFrame sid] else []) = _
      rw [hws]
      rfl
    · exact findA_eraseA_self _ _
    · exact findA_eraseA_self _ _
    · show findA (eraseA (eraseA s.data_map oid) pk.str) oid = none
      rw [findA_eraseA_ne _ (Ne.symm hne)]
      exact findA_eraseA_self _ _
    · exact findA_eraseA_self _ _
    · exact findA_eraseA_self _ _
    · exact findA_eraseA_self _ _

/-- Witness for (amended) C3: removing "A-2" from `c3_state2` keeps the
sibling and the wire subscription; removing the last synthetic key "A-1"
from `c3_state` tears down and purges the canonical key too. -/
theorem C3_witness :
    ((remove_account c3_state2 exA (some "A-2")).2 = []
      ∧ findA (remove_account c3_state2 exA (some "A-2")).1.data_map "A"
          = findA c3_state2.data_map "A")
    ∧ ((remove_account c3_state exA (some "A-1")).2 = [Frame.unsubscribeFrame 5]
      ∧ findA (remove_account c3_state exA (some "A-1")).1.data_map "A-1" = none) :=
  have h2 := C3_remove_feed c3_state2 exA "A-2" ["A-1", "A-2"] 5 rfl (by decide)
  have h1 := C3_remove_feed c3_state exA "A-1" ["A-1"] 5 rfl (by decide)
  ⟨⟨(h2.1 (by decide)).1, ((h2.1 (by decide)).2.2.2.1 "A" (by decide)).2⟩,
   ⟨(h1.2 (by decide) rfl rfl).1, (h1.2 (by decide) rfl rfl).2.2.2.1⟩⟩

/-- Counterexample to C4 as stated: (a) dedup is keyed on *confirmed*
subscriptions only, so two adds for the same address before its
confirmation arrives send two subscribe frames within one connection
lifetime; (b) a canonical-key add for an address already subscribed via a
synthetic key registers nothing at all — its decoder/initial value are not
stored. -/
theorem C4_counterexample :
    (add_account { initialState Nat with ws := true } exA (fun _ => some 1)
        none (some "A-1") (some ⟨5, 1⟩)).2 = [Frame.subscribeFrame 1 exA]
    ∧ (add_account (add_account { initialState Nat with ws := true } exA
          (fun _ => some 1) none (some "A-1") (some ⟨5, 1⟩)).1 exA
          (fun _ => some 1) none (some "A-2") (some ⟨5, 2⟩)).2
        = [Frame.subscribeFrame 2 exA]
    ∧ (add_account c4_sub_state exA (fun _ => some 7) (some ⟨7, 3⟩) none none).1
        = c4_sub_state
    ∧ findA (add_account c4_sub_state exA (fun _ => some 7) (some ⟨7, 3⟩)
        none none).1.decode_map "A" = none :=
  ⟨rfl, rfl, rfl, rfl⟩

/-- Claim C4 (amended): if an address already has a *confirmed* underlying
subscription (an entry in `pubkey_to_subscription`), `add_account` sends no
subscribe frame and creates no in-flight request; with a synthetic key it
registers that key against the existing subscription (decoder, optional
initial value, mapping to the existing subscription id); with no synthetic
key it returns leaving the state unchanged.  Dedup applies only to
confirmed subscriptions, so an add racing an in-flight subscribe sends an
additional frame (see the counterexample). -/
theorem C4_add_when_subscribed {α : Type} (s : SubState α) (pk : Pubkey)
    (d : Decoder α) (init : Option (DataAndSlot α)) (oid? : Option String)
    (fr : Option (DataAndSlot α)) (sid : Nat)
    (hsub : findA s.pubkey_to_subscription pk = some sid) :
    (add_account s pk d init oid? fr).2 = []
    ∧ (add_account s pk d init oid? fr).1.inflight_subscribes
        = s.inflight_subscribes
    ∧ (add_account s pk d init oid? fr).1.request_id_counter
        = s.request_id_counter
    ∧ (oid? = none → (add_account s pk d init oid? fr).1 = s)
    ∧ (∀ oid, oid? = some oid →
        findA (add_account s pk d init oid? fr).1.decode_map oid = some d
        ∧ findA (add_account s pk d init oid? fr).1.oracle_id_to_subscription oid
            = some sid
        ∧ (∀ v, init = some v →
            findA (add_account s pk d init oid? fr).1.data_map oid = some v)
        ∧ (init = none →
            (add_account s pk d init oid? fr).1.data_map = s.data_map)) := by
  cases oid? with
  | none =>
    have hred : add_account s pk d init none fr = (s, []) := by
      simp only [add_account, hsub]
    rw [hred]
    exact ⟨rfl, rfl, rfl, fun _ => rfl, fun oid h => nomatch h⟩
  | some oid =>
    have hred : add_account s pk d init (some oid) fr
        = ({ s with
             pubkey_to_oracle_ids := insertA s.pubkey_to_oracle_ids pk
               (setAdd ((findA s.pubkey_to_oracle_ids pk).getD []) oid),
             oracle_id_to_subscription := insertA s.oracle_id_to_subscription oid sid,
             decode_map := insertA s.decode_map oid d,
             data_map :=
               match init with
               | some v => insertA s.data_map oid v
               | none => s.data_map }, []) := by
      simp only [add_account, hsub, Option.getD_some]
    rw [hred]
    refine ⟨rfl, rfl, rfl, ?_, ?_⟩
    · intro h
      exact nomatch h
    intro oid2 h
    injection h with h
    subst h
    refine ⟨findA_insertA_self _ _ _, findA_insertA_self _ _ _, ?_, ?_⟩
    · intro v hv
      rw [hv]
      exact findA_insertA_self _ _ _
    · intro hv
      rw [hv]

/-- Witness for (amended) C4: adding the synthetic key "A-2" to the already
subscribed address A sends no frame and maps "A-2" to subscription id 9. -/
theorem C4_witness :
    (add_account c4_sub_state exA (fun _ => some 4) (some ⟨8, 4⟩)
        (some "A-2") none).2 = []
    ∧ findA (add_account c4_sub_state exA (fun _ => some 4) (some ⟨8, 4⟩)
        (some "A-2") none).1.oracle_id_to_subscription "A-2" = some 9 :=
  have h := C4_add_when_subscribed c4_sub_state exA (fun _ => some 4)
    (some ⟨8, 4⟩) (some "A-2") none 9 rfl
  ⟨h.1, (h.2.2.2.2 "A-2" rfl).2.1⟩

/-- Counterexample to C5 as stated: with no initial value and a failing
snapshot fetch, `add_account` returns normally (the error is only printed)
and the decoder stored before the fetch stays registered — the feed is not
fully unregistered. -/
theorem C5_counterexample :
    (findA (add_account { initialState Nat with ws := true } exA
        (fun _ => some 0) none none none).1.decode_map "A").isSome = true
    ∧ (add_account { initialState Nat with ws := true } exA
        (fun _ => some 0) none none none).2 = [] :=
  ⟨rfl, rfl⟩

/-- Claim C5 (amended): if `add_account` is called without an initial value
(and no value is already cached for the key) and the snapshot fetch fails,
the error is swallowed (printed, not raised) and the call returns early:
no cached value, no subscribe frame, and no in-flight request are created
— but the decoder stored before the fetch remains registered (and so does
any synthetic-key mapping). -/
theorem C5_fetch_failure {α : Type} (s : SubState α) (pk : Pubkey)
    (d : Decoder α) (oid? : Option String)
    (hnosub : findA s.pubkey_to_subscription pk = none)
    (hnodata : findA s.data_map (oid?.getD pk.str) = none) :
    (add_account s pk d none oid? none).2 = []
    ∧ (add_account s pk d none oid? none).1.data_map = s.data_map
    ∧ findA (add_account s pk d none oid? none).1.decode_map (oid?.getD pk.str)
        = some d
    ∧ (add_account s pk d none oid? none).1.inflight_subscribes
        = s.inflight_subscribes
    ∧ (add_account s pk d none oid? none).1.request_id_counter
        = s.request_id_counter := by
  have hred : add_account s pk d none oid? none
      = ({ s with
           decode_map := insertA s.decode_map (oid?.getD pk.str) d,
           pubkey_to_oracle_ids :=
             match oid? with
             | some oid =>
               insertA s.pubkey_to_oracle_ids pk
                 (setAdd ((findA s.pubkey_to_oracle_ids pk).getD []) oid)
             | none => s.pubkey_to_oracle_ids }, []) := by
    simp only [add_account, hnosub, hnodata]
    cases oid? <;> rfl
  rw [hred]
  exact ⟨rfl, rfl, findA_insertA_self _ _ _, rfl, rfl⟩

/-- Witness for (amended) C5: a failed fetch for a fresh canonical-key feed
leaves the decoder registered while sending nothing. -/
theorem C5_witness :
    (add_account { initialState Nat with ws := true } exA (fun _ => some 0)
        none none none).2 = []
    ∧ findA (add_account { initialState Nat with ws := true } exA
        (fun _ => some 0) none none none).1.decode_map "A"
        = some (fun _ => some 0) :=
  have h := C5_fetch_failure { initialState Nat with ws := true } exA
    (fun _ => some 0) none rfl rfl
  ⟨h.1, h.2.2.1⟩

/-! ### Pending-subscriptions preservation (C7) -/

theorem update_data_pending {α : Type} (s : SubState α) (key : String)
    (nd? : Option (DataAndSlot α)) :
    (update_data s key nd?).pending_subscriptions = s.pending_subscriptions := by
  unfold update_data
  repeat' split
  all_goals rfl

theorem apply_oracle_update_pending {α : Type} (slot : Nat) (b : Bytes)
    (s : SubState α) (oid : String) :
    (apply_oracle_update slot b s oid).pending_subscriptions
      = s.pending_subscriptions := by
  unfold apply_oracle_update
  split
  · rfl
  · split
    · rfl
    · exact update_data_pending _ _ _

theorem fanout_foldl_pending {α : Type} (slot : Nat) (b : Bytes) :
    ∀ (oids : List String) (s : SubState α),
      (oids.foldl (apply_oracle_update slot b) s).pending_subscriptions
        = s.pending_subscriptions := by
  intro oids
  induction oids with
  | nil => intro s; rfl
  | cons o t ih =>
    intro s
    simp only [List.foldl_cons]
    rw [ih, apply_oracle_update_pending]

theorem handle_notification_pending {α : Type} (s : SubState α)
    (sid? : Option Nat) (slot : Nat) (b : Bytes) :
    (handle_notification s sid? slot b).pending_subscriptions
      = s.pending_subscriptions := by
  unfold handle_notification
  repeat' split
  all_goals
    first
      | rfl
      | exact apply_oracle_update_pending _ _ _ _
      | exact fanout_foldl_pending _ _ _ _

theorem add_account_send_pending {α : Type} (s2 : SubState α) (pk : Pubkey)
    (oid? : Option String) :
    (add_account_send s2 pk oid?).1.pending_subscriptions
      = s2.pending_subscriptions := by
  unfold add_account_send
  repeat' split
  all_goals rfl

theorem add_account_pending {α : Type} (s : SubState α) (pk : Pubkey)
    (d : Decoder α) (init : Option (DataAndSlot α)) (oid? : Option String)
    (fr : Option (DataAndSlot α)) :
    (add_account s pk d init oid? fr).1.pending_subscriptions
      = s.pending_subscriptions := by
  unfold add_account
  repeat' first | split | dsimp only
  all_goals first | rfl | rw [add_account_send_pending]

theorem remove_account_purge_pending {α : Type} (s1 : SubState α)
    (pk : Pubkey) :
    (remove_account_purge s1 pk).1.pending_subscriptions
      = s1.pending_subscriptions := by
  unfold remove_account_purge
  repeat' split
  all_goals rfl

theorem remove_account_pending {α : Type} (s : SubState α) (pk : Pubkey)
    (oid? : Option String) :
    (remove_account s pk oid?).1.pending_subscriptions
      = s.pending_subscriptions := by
  unfold remove_account remove_account_oracle remove_account_all
  repeat' first | split | dsimp only
  all_goals first | rfl | rw [remove_account_purge_pending]

/-- Counterexample to C7 as stated: `c7_state` has exactly one unconfirmed
subscribe, sent for address A since the last (re)connect, still in the
in-flight set.  A confirmation frame without a request id arrives; the
claim requires the fallback to match that oldest unconfirmed subscribe and
record A's subscription id 42, but the code's fallback pops the (always
empty) `pending_subscriptions` list, records nothing, and drops the
frame. -/
theorem C7_counterexample :
    c7_state.inflight_subscribes = [(1, exA, none)]
    ∧ handle_confirmation c7_state none 42 = c7_state
    ∧ findA (handle_confirmation c7_state none 42).pubkey_to_subscription exA
        = none :=
  ⟨rfl, rfl, rfl⟩

/-- Claim C7 (amended): a confirmation frame lacking a correlatable request
id is matched against the legacy `pending_subscriptions` list and logged
with a warning; since no operation of this module ever appends to that
list — it starts empty and is preserved by add/remove/notification
handling and disconnects, and cleared by shutdown — the fallback never
finds a candidate, so such confirmations are dropped without recording any
address-to-subscription-id mapping. -/
theorem C7_fallback_never_matches {α : Type} (s : SubState α)
    (rid subId slot : Nat) (b : Bytes) (sid? : Option Nat) (pk : Pubkey)
    (d : Decoder α) (init fr : Option (DataAndSlot α)) (oid? : Option String) :
    (s.pending_subscriptions = [] →
      (handle_confirmation s none subId = s)
      ∧ (findA s.inflight_subscribes rid = none →
          handle_confirmation s (some rid) subId = s))
    ∧ (initialState α).pending_subscriptions = []
    ∧ (add_account s pk d init oid? fr).1.pending_subscriptions
        = s.pending_subscriptions
    ∧ (remove_account s pk oid?).1.pending_subscriptions
        = s.pending_subscriptions
    ∧ (handle_notification s sid? slot b).pending_subscriptions
        = s.pending_subscriptions
    ∧ (handle_disconnect s).pending_subscriptions = s.pending_subscriptions
    ∧ (unsubscribe s).1.pending_subscriptions = [] := by
  refine ⟨?_, rfl, add_account_pending s pk d init oid? fr,
    remove_account_pending s pk oid?,
    handle_notification_pending s sid? slot b, rfl, rfl⟩
  intro hp
  constructor
  · show confirmation_fallback s subId = s
    unfold confirmation_fallback
    rw [hp]
  · intro hin
    unfold handle_confirmation
    simp only [hin]
    unfold confirmation_fallback
    rw [hp]

/-- Witness for (amended) C7: at `c7_state` the no-id confirmation is
dropped and a disconnect leaves the pending list unchanged. -/
theorem C7_witness :
    handle_confirmation c7_state none 42 = c7_state
    ∧ (handle_disconnect c7_state).pending_subscriptions
        = c7_state.pending_subscriptions :=
  have h := C7_fallback_never_matches c7_state 5 42 0 [] none exA
    (fun _ => some 1) none none none
  ⟨(h.1 rfl).1, h.2.2.2.2.2.1⟩

end DriftWs
